import Mathlib

/-!
Shallow embedding of the sockeye core layers (src/sockeye/layers.py and
src/sockeye/rnn.py) and proofs about them.

Modelling conventions:
- Tensor scalars are modelled as exact rationals, an idealisation of the
  runtime float arithmetic; every value of the model is a finite number.
- A tensor of rank k is a curried function from k natural-number (or Fin)
  indices to rationals; reshape and transpose become index arithmetic,
  exactly mirroring the MXNet index semantics of the reshape specs used in
  the source (0 = copy dim, -1 = infer, -3 = merge two dims, -4 = split a
  dim).
- Nonlinear primitives supplied by the tensor runtime (sqrt, exp, sigmoid,
  tanh) are passed in as abstract function parameters: the source calls out
  to mx.sym for them and the claims under study do not depend on their
  values.
- Dropout randomness is modelled as an explicit Boolean mask argument; the
  layer consults the mask only when its configured rate is positive, as in
  the source.
-/

set_option autoImplicit false

namespace Sockeye

/-! ### Normalization (layers.py, class LayerNormalization) -/

/-- mx.sym.mean over axis 1 with keepdims (layers.py line 57): the per-row
mean of a (batch, H) tensor. -/
def mxMeanAxis1 {B H : ℕ} (inputs : Fin B → Fin H → ℚ) : Fin B → ℚ :=
  fun b => (∑ i, inputs b i) / (H : ℚ)

/-- layers.py line 59: per-row variance, the mean of squared deviations from
the per-row mean. -/
def mxVarAxis1 {B H : ℕ} (inputs : Fin B → Fin H → ℚ) : Fin B → ℚ :=
  fun b => (∑ i, (inputs b i - mxMeanAxis1 inputs b) ^ 2) / (H : ℚ)

/-- mx.sym.broadcast_minus of a (batch, H) tensor and a (batch, 1) column. -/
def broadcastMinus {B H : ℕ} (x : Fin B → Fin H → ℚ) (m : Fin B → ℚ) :
    Fin B → Fin H → ℚ :=
  fun b i => x b i - m b

/-- mx.sym.broadcast_mul of a (batch, H) tensor and a (batch, 1) column. -/
def broadcastMulCol {B H : ℕ} (x : Fin B → Fin H → ℚ) (m : Fin B → ℚ) :
    Fin B → Fin H → ℚ :=
  fun b i => x b i * m b

/-- mx.sym.broadcast_mul of a (batch, H) tensor and an (H,) row vector. -/
def broadcastMulRow {B H : ℕ} (x : Fin B → Fin H → ℚ) (s : Fin H → ℚ) :
    Fin B → Fin H → ℚ :=
  fun b i => x b i * s i

/-- mx.sym.broadcast_add of a (batch, H) tensor and an (H,) row vector. -/
def broadcastAddRow {B H : ℕ} (x : Fin B → Fin H → ℚ) (s : Fin H → ℚ) :
    Fin B → Fin H → ℚ :=
  fun b i => x b i + s i

/-- mx.sym.rsqrt: reciprocal square root, in terms of the runtime-supplied
square root function. -/
def rsqrt (sqrtFn : ℚ → ℚ) (y : ℚ) : ℚ :=
  (sqrtFn y)⁻¹

/-- LayerNormalization.normalize (layers.py lines 62-76), translated line by
line: subtract the per-row mean, multiply by rsqrt(var + eps), multiply by
the scale row vector, add the shift row vector. -/
def normalize (sqrtFn : ℚ → ℚ) {B H : ℕ} (scale shift : Fin H → ℚ)
    (inputs : Fin B → Fin H → ℚ) (eps : ℚ) : Fin B → Fin H → ℚ :=
  let mean := mxMeanAxis1 inputs
  let var := mxVarAxis1 inputs
  broadcastAddRow
    (broadcastMulRow
      (broadcastMulCol (broadcastMinus inputs mean)
        (fun b => rsqrt sqrtFn (var b + eps)))
      scale)
    shift

/-- The spec formula for normalization, written from the spec sentence:
output = scale ⊙ (x − mean) / sqrt(var + eps) + shift, with mean the per-row
mean over the H axis and var the per-row mean of squared deviations from
that mean, scale and shift broadcast over the batch axis. -/
def normalizeSpecFormula (sqrtFn : ℚ → ℚ) {B H : ℕ} (scale shift : Fin H → ℚ)
    (x : Fin B → Fin H → ℚ) (eps : ℚ) : Fin B → Fin H → ℚ :=
  fun b i =>
    let mean := (∑ j, x b j) / (H : ℚ)
    let var := (∑ j, (x b j - mean) ^ 2) / (H : ℚ)
    scale i * (x b i - mean) / sqrtFn (var + eps) + shift i

/-! ### Head split / combine (layers.py, split_heads and combine_heads) -/

/-- layers.py line 89: reshape (batch, length, depth) to
(batch, length, heads, depth_per_head); the depth index h * dph + d maps to
(h, d). -/
def reshapeSplitLast {α : Type} (dph : ℕ) (x : ℕ → ℕ → ℕ → α) :
    ℕ → ℕ → ℕ → ℕ → α :=
  fun b l h d => x b l (h * dph + d)

/-- layers.py lines 91 and 108: mx.sym.transpose with axes (0, 2, 1, 3),
swapping the two middle axes of a rank-4 tensor. -/
def transpose0213 {α : Type} (x : ℕ → ℕ → ℕ → ℕ → α) : ℕ → ℕ → ℕ → ℕ → α :=
  fun b h l d => x b l h d

/-- layers.py line 93: reshape with spec (-3, length, -1), merging the first
two axes; merged index m corresponds to the pair (m / heads, m % heads). -/
def reshapeMerge01 {α : Type} (heads : ℕ) (x : ℕ → ℕ → ℕ → ℕ → α) :
    ℕ → ℕ → ℕ → α :=
  fun bh l d => x (bh / heads) (bh % heads) l d

/-- split_heads (layers.py lines 79-93): fold the head axis into the batch
axis and divide depth by the number of heads. -/
def split_heads {α : Type} (heads dph : ℕ) (x : ℕ → ℕ → ℕ → α) :
    ℕ → ℕ → ℕ → α :=
  reshapeMerge01 heads (transpose0213 (reshapeSplitLast dph x))

/-- layers.py line 106: reshape with spec (-4, -1, heads, length, 0),
splitting the leading batch*heads axis into (batch, heads). -/
def reshapeSplit01 {α : Type} (heads : ℕ) (x : ℕ → ℕ → ℕ → α) :
    ℕ → ℕ → ℕ → ℕ → α :=
  fun b h l d => x (b * heads + h) l d

/-- layers.py line 110: reshape with spec (-1, length, -3), merging the
trailing (heads, depth_per_head) axes back into one depth axis. -/
def reshapeMerge23 {α : Type} (dph : ℕ) (x : ℕ → ℕ → ℕ → ℕ → α) :
    ℕ → ℕ → ℕ → α :=
  fun b l dp => x b l (dp / dph) (dp % dph)

/-- combine_heads (layers.py lines 96-110): the inverse reshapes of
split_heads, restoring shape (batch, length, depth). -/
def combine_heads {α : Type} (heads dph : ℕ) (x : ℕ → ℕ → ℕ → α) :
    ℕ → ℕ → ℕ → α :=
  reshapeMerge23 dph (transpose0213 (reshapeSplit01 heads x))

/-! ### Attention length masking (layers.py, broadcast_lengths and
MultiHeadAttention.on) -/

/-- layers.py line 122: mx.sym.expand_dims axis 1 of a (batch,) length
vector, giving shape (batch, 1). -/
def expandDims1 (x : ℕ → ℕ) : ℕ → ℕ → ℕ :=
  fun b _j => x b

/-- layers.py line 124: mx.sym.broadcast_to shape (0, heads), replicating
the single column across the head axis. -/
def broadcastToHeads (x : ℕ → ℕ → ℕ) : ℕ → ℕ → ℕ :=
  fun b _h => x b 0

/-- layers.py line 126: reshape with spec (-3,), merging the (batch, heads)
axes into one. -/
def mergeBatchHeads (heads : ℕ) (x : ℕ → ℕ → ℕ) : ℕ → ℕ :=
  fun i => x (i / heads) (i % heads)

/-- broadcast_lengths (layers.py lines 113-127): replicate each sequence
valid length across all of its heads. -/
def broadcast_lengths (heads : ℕ) (x : ℕ → ℕ) : ℕ → ℕ :=
  mergeBatchHeads heads (broadcastToHeads (expandDims1 x))

/-- mx.sym.transpose with axes (2, 0, 1) on a rank-3 tensor (layers.py line
199): output index (k, b, q) reads input index (b, q, k). -/
def transpose201 {α : Type} (x : ℕ → ℕ → ℕ → α) : ℕ → ℕ → ℕ → α :=
  fun k b q => x b q k

/-- mx.sym.transpose with axes (1, 2, 0) (layers.py line 205): output index
(b, q, k) reads input index (k, b, q). -/
def transpose120 {α : Type} (x : ℕ → ℕ → ℕ → α) : ℕ → ℕ → ℕ → α :=
  fun b q k => x k b q

/-- mx.sym.SequenceMask with use_sequence_length=True (layers.py lines
200-203): axis 0 is the sequence axis and axis 1 the batch axis; entries at
sequence positions at or beyond the valid length of the
corresponding batch entry are replaced by the fill value. -/
def sequenceMask (data : ℕ → ℕ → ℕ → ℚ) (lens : ℕ → ℕ) (value : ℚ) :
    ℕ → ℕ → ℕ → ℚ :=
  fun t b r => if t < lens b then data t b r else value

/-- The finite sentinel fill value passed to SequenceMask in
MultiHeadAttention.on (layers.py line 203). -/
def maskValue : ℚ := -99999999

/-- layers.py lines 198-205: transpose the (batch*heads, query, key) logits
so the key axis leads, apply SequenceMask with the head-broadcast lengths,
and transpose back. -/
def maskedLogits (heads : ℕ) (inputsLength : ℕ → ℕ)
    (logits : ℕ → ℕ → ℕ → ℚ) : ℕ → ℕ → ℕ → ℚ :=
  transpose120
    (sequenceMask (transpose201 logits) (broadcast_lengths heads inputsLength)
      maskValue)

/-- mx.sym.softmax along a trailing axis of size length, with the runtime
exponential passed in abstractly. -/
def softmaxRow (expFn : ℚ → ℚ) (length : ℕ) (row : ℕ → ℚ) : ℕ → ℚ :=
  fun k => expFn (row k) / ∑ j ∈ Finset.range length, expFn (row j)

/-- layers.py line 206: attention probabilities, the softmax of the masked
logits over the key axis. -/
def attendProbs (expFn : ℚ → ℚ) (heads length : ℕ) (inputsLength : ℕ → ℕ)
    (logits : ℕ → ℕ → ℕ → ℚ) : ℕ → ℕ → ℕ → ℚ :=
  fun bh q => softmaxRow expFn length (fun k => maskedLogits heads inputsLength logits bh q k)

/-- mx.sym.Dropout on a rank-3 tensor, modelled with an explicit Boolean
keep-mask and inverted-dropout rescaling. -/
def mxDropout3 (p : ℚ) (mask : ℕ → ℕ → ℕ → Bool) (t : ℕ → ℕ → ℕ → ℚ) :
    ℕ → ℕ → ℕ → ℚ :=
  fun a b c => if mask a b c then t a b c * (1 - p)⁻¹ else 0

/-- layers.py lines 206-208: the probability tensor of MultiHeadAttention.on,
with dropout applied only when the configured rate is positive. -/
def attendProbsDropout (expFn : ℚ → ℚ) (p : ℚ) (mask : ℕ → ℕ → ℕ → Bool)
    (heads length : ℕ) (inputsLength : ℕ → ℕ) (logits : ℕ → ℕ → ℕ → ℚ) :
    ℕ → ℕ → ℕ → ℚ :=
  if 0 < p then mxDropout3 p mask (attendProbs expFn heads length inputsLength logits)
  else attendProbs expFn heads length inputsLength logits

/-! ### Batched elementwise and linear primitives shared by the cells -/

/-- mx.sym.FullyConnected: weight has shape (num_out, num_in) and bias
(num_out,); each batch row is mapped to x Wᵀ + bias. -/
def fullyConnectedB {B nin nout : ℕ} (weight : Fin nout → Fin nin → ℚ)
    (bias : Fin nout → ℚ) (x : Fin B → Fin nin → ℚ) : Fin B → Fin nout → ℚ :=
  fun b j => (∑ i, weight j i * x b i) + bias j

/-- Elementwise addition of two equally shaped tensors. -/
def eltAdd {B n : ℕ} (x y : Fin B → Fin n → ℚ) : Fin B → Fin n → ℚ :=
  fun b i => x b i + y b i

/-- Elementwise (Hadamard) product of two equally shaped tensors. -/
def eltMul {B n : ℕ} (x y : Fin B → Fin n → ℚ) : Fin B → Fin n → ℚ :=
  fun b i => x b i * y b i

/-- mx.sym.Activation: apply a scalar activation function elementwise. -/
def mapAct (f : ℚ → ℚ) {B n : ℕ} (x : Fin B → Fin n → ℚ) : Fin B → Fin n → ℚ :=
  fun b i => f (x b i)

/-- mx.sym.zeros_like: an all-zeros tensor of the shape of its argument. -/
def zerosLike {B n : ℕ} (_x : Fin B → Fin n → ℚ) : Fin B → Fin n → ℚ :=
  fun _ _ => 0

/-- mx.sym.split with num_outputs = c along axis 1 of a (batch, c * H)
tensor: chunk g is the H-sized contiguous slice starting at offset g * H. -/
def splitChunk {B H c : ℕ} (g : Fin c) (x : Fin B → Fin (c * H) → ℚ) :
    Fin B → Fin H → ℚ :=
  fun b i =>
    x b ⟨g.val * H + i.val, by
      have h1 : g.val * H + i.val < (g.val + 1) * H := by
        rw [Nat.succ_mul]
        exact Nat.add_lt_add_left i.isLt _
      exact lt_of_lt_of_le h1 (Nat.mul_le_mul_right H g.isLt)⟩

/-- The default variance epsilon of LayerNormalization.normalize
(layers.py line 62). -/
def defaultEps : ℚ := 1 / 100000

/-- Scale and shift vectors of one Normalization unit. -/
structure LNParams (n : ℕ) where
  scale : Fin n → ℚ
  shift : Fin n → ℚ

/-! ### Layer-normalized LSTM, across-gates variant (rnn.py,
LayerNormLSTMCell) -/

/-- Weights owned by a LayerNormLSTMCell: the two projections inherited
from the base LSTM cell and the three Normalization units created in
rnn.py lines 111-128. -/
structure LstmWeights (nin H : ℕ) where
  iW : Fin (4 * H) → Fin nin → ℚ
  iB : Fin (4 * H) → ℚ
  hW : Fin (4 * H) → Fin H → ℚ
  hB : Fin (4 * H) → ℚ
  iN : LNParams (4 * H)
  hN : LNParams (4 * H)
  cN : LNParams H

/-- LayerNormLSTMCell.__call__ (rnn.py lines 131-163), the first invocation
(counter = 0), which creates the all-zeros shape-fix placeholder of the
shape of i2h and adds it to h2h before the hidden-side normalization.
Later invocations reuse the same saved placeholder, so this is also every
later step. Returns (output, (next hidden, next cell)). -/
def LayerNormLSTMCell_call (sqrtFn sigmoid tanhFn : ℚ → ℚ) {B nin H : ℕ}
    (w : LstmWeights nin H) (inputs : Fin B → Fin nin → ℚ)
    (h c : Fin B → Fin H → ℚ) :
    (Fin B → Fin H → ℚ) × ((Fin B → Fin H → ℚ) × (Fin B → Fin H → ℚ)) :=
  let i2h := fullyConnectedB w.iW w.iB inputs
  let shapeFix := zerosLike i2h
  let h2h := fullyConnectedB w.hW w.hB h
  let gates := eltAdd (normalize sqrtFn w.iN.scale w.iN.shift i2h defaultEps)
    (normalize sqrtFn w.hN.scale w.hN.shift (eltAdd shapeFix h2h) defaultEps)
  let in_gate := mapAct sigmoid (splitChunk (0 : Fin 4) gates)
  let forget_gate := mapAct sigmoid (splitChunk (1 : Fin 4) gates)
  let in_transform := mapAct tanhFn (splitChunk (2 : Fin 4) gates)
  let out_gate := mapAct sigmoid (splitChunk (3 : Fin 4) gates)
  let next_c := eltAdd (eltMul forget_gate c) (eltMul in_gate in_transform)
  let next_h := eltMul out_gate
    (mapAct tanhFn (normalize sqrtFn w.cN.scale w.cN.shift next_c defaultEps))
  (next_h, (next_h, next_c))

/-- The same recurrence with the shape-fix placeholder omitted: h2h is
normalized directly. -/
def LayerNormLSTMCell_call_noFix (sqrtFn sigmoid tanhFn : ℚ → ℚ) {B nin H : ℕ}
    (w : LstmWeights nin H) (inputs : Fin B → Fin nin → ℚ)
    (h c : Fin B → Fin H → ℚ) :
    (Fin B → Fin H → ℚ) × ((Fin B → Fin H → ℚ) × (Fin B → Fin H → ℚ)) :=
  let i2h := fullyConnectedB w.iW w.iB inputs
  let h2h := fullyConnectedB w.hW w.hB h
  let gates := eltAdd (normalize sqrtFn w.iN.scale w.iN.shift i2h defaultEps)
    (normalize sqrtFn w.hN.scale w.hN.shift h2h defaultEps)
  let in_gate := mapAct sigmoid (splitChunk (0 : Fin 4) gates)
  let forget_gate := mapAct sigmoid (splitChunk (1 : Fin 4) gates)
  let in_transform := mapAct tanhFn (splitChunk (2 : Fin 4) gates)
  let out_gate := mapAct sigmoid (splitChunk (3 : Fin 4) gates)
  let next_c := eltAdd (eltMul forget_gate c) (eltMul in_gate in_transform)
  let next_h := eltMul out_gate
    (mapAct tanhFn (normalize sqrtFn w.cN.scale w.cN.shift next_c defaultEps))
  (next_h, (next_h, next_c))

/-- The across-gates LSTM step as the spec states it for claim C5: gatesRaw
is normInput(Linear_i(x)) + normHidden(Linear_h(h_prev)); it is split into
the four H-sized chunks inGate, forgetGate, candidate, outGate in that
order; sigmoid, sigmoid, tanh, sigmoid are applied; c = forgetGate ⊙ c_prev
+ inGate ⊙ candidate; h = outGate ⊙ tanh(normCell(c)); the output is h and
the new state (h, c). -/
def lstmStepSpecFormula (sqrtFn sigmoid tanhFn : ℚ → ℚ) {B nin H : ℕ}
    (w : LstmWeights nin H) (x : Fin B → Fin nin → ℚ)
    (hPrev cPrev : Fin B → Fin H → ℚ) :
    (Fin B → Fin H → ℚ) × ((Fin B → Fin H → ℚ) × (Fin B → Fin H → ℚ)) :=
  let gatesRaw := fun b j =>
    normalize sqrtFn w.iN.scale w.iN.shift (fullyConnectedB w.iW w.iB x) defaultEps b j +
      normalize sqrtFn w.hN.scale w.hN.shift (fullyConnectedB w.hW w.hB hPrev) defaultEps b j
  let inGate := fun b i => sigmoid (splitChunk (0 : Fin 4) gatesRaw b i)
  let forgetGate := fun b i => sigmoid (splitChunk (1 : Fin 4) gatesRaw b i)
  let candidate := fun b i => tanhFn (splitChunk (2 : Fin 4) gatesRaw b i)
  let outGate := fun b i => sigmoid (splitChunk (3 : Fin 4) gatesRaw b i)
  let c := fun b i => forgetGate b i * cPrev b i + inGate b i * candidate b i
  let h := fun b i =>
    outGate b i * tanhFn (normalize sqrtFn w.cN.scale w.cN.shift c defaultEps b i)
  (h, (h, c))

/-! ### Layer-normalized GRU, across-gates variant (rnn.py,
LayerNormGRUCell) -/

/-- Weights owned by a LayerNormGRUCell: the two projections inherited from
the base GRU cell and the two Normalization units created in rnn.py lines
249-260. -/
structure GruWeights (nin H : ℕ) where
  iW : Fin (3 * H) → Fin nin → ℚ
  iB : Fin (3 * H) → ℚ
  hW : Fin (3 * H) → Fin H → ℚ
  hB : Fin (3 * H) → ℚ
  iN : LNParams (3 * H)
  hN : LNParams (3 * H)

/-- LayerNormGRUCell.__call__ (rnn.py lines 263-302), the first invocation
(counter = 0) with the all-zeros shape-fix placeholder added to h2h before
the hidden-side normalization; later invocations reuse the same zero
placeholder. Returns (output, next hidden). -/
def LayerNormGRUCell_call (sqrtFn sigmoid tanhFn : ℚ → ℚ) {B nin H : ℕ}
    (w : GruWeights nin H) (inputs : Fin B → Fin nin → ℚ)
    (hPrev : Fin B → Fin H → ℚ) :
    (Fin B → Fin H → ℚ) × (Fin B → Fin H → ℚ) :=
  let i2hRaw := fullyConnectedB w.iW w.iB inputs
  let h2hRaw := fullyConnectedB w.hW w.hB hPrev
  let shapeFix := zerosLike i2hRaw
  let i2h := normalize sqrtFn w.iN.scale w.iN.shift i2hRaw defaultEps
  let h2h := normalize sqrtFn w.hN.scale w.hN.shift (eltAdd shapeFix h2hRaw) defaultEps
  let reset_gate := mapAct sigmoid
    (eltAdd (splitChunk (0 : Fin 3) i2h) (splitChunk (0 : Fin 3) h2h))
  let update_gate := mapAct sigmoid
    (eltAdd (splitChunk (1 : Fin 3) i2h) (splitChunk (1 : Fin 3) h2h))
  let next_h_tmp := mapAct tanhFn
    (eltAdd (splitChunk (2 : Fin 3) i2h) (eltMul reset_gate (splitChunk (2 : Fin 3) h2h)))
  let next_h := fun b i =>
    (1 - update_gate b i) * next_h_tmp b i + update_gate b i * hPrev b i
  (next_h, next_h)

/-- The same GRU recurrence with the shape-fix placeholder omitted. -/
def LayerNormGRUCell_call_noFix (sqrtFn sigmoid tanhFn : ℚ → ℚ) {B nin H : ℕ}
    (w : GruWeights nin H) (inputs : Fin B → Fin nin → ℚ)
    (hPrev : Fin B → Fin H → ℚ) :
    (Fin B → Fin H → ℚ) × (Fin B → Fin H → ℚ) :=
  let i2hRaw := fullyConnectedB w.iW w.iB inputs
  let h2hRaw := fullyConnectedB w.hW w.hB hPrev
  let i2h := normalize sqrtFn w.iN.scale w.iN.shift i2hRaw defaultEps
  let h2h := normalize sqrtFn w.hN.scale w.hN.shift h2hRaw defaultEps
  let reset_gate := mapAct sigmoid
    (eltAdd (splitChunk (0 : Fin 3) i2h) (splitChunk (0 : Fin 3) h2h))
  let update_gate := mapAct sigmoid
    (eltAdd (splitChunk (1 : Fin 3) i2h) (splitChunk (1 : Fin 3) h2h))
  let next_h_tmp := mapAct tanhFn
    (eltAdd (splitChunk (2 : Fin 3) i2h) (eltMul reset_gate (splitChunk (2 : Fin 3) h2h)))
  let next_h := fun b i =>
    (1 - update_gate b i) * next_h_tmp b i + update_gate b i * hPrev b i
  (next_h, next_h)

/-- The across-gates GRU step as the spec states it for claim C6: i2h and
h2h are the two full projections, each normalized by its own Normalization
unit over 3H; each is split into reset, update, candidate chunks; resetGate
= sigmoid(i2h_r + h2h_r); updateGate = sigmoid(i2h_z + h2h_z); candidate =
tanh(i2h_c + resetGate ⊙ h2h_c); new hidden h = (1 − updateGate) ⊙
candidate + updateGate ⊙ h_prev, which is also the output. -/
def gruStepSpecFormula (sqrtFn sigmoid tanhFn : ℚ → ℚ) {B nin H : ℕ}
    (w : GruWeights nin H) (x : Fin B → Fin nin → ℚ)
    (hPrev : Fin B → Fin H → ℚ) :
    (Fin B → Fin H → ℚ) × (Fin B → Fin H → ℚ) :=
  let i2h := normalize sqrtFn w.iN.scale w.iN.shift (fullyConnectedB w.iW w.iB x) defaultEps
  let h2h := normalize sqrtFn w.hN.scale w.hN.shift (fullyConnectedB w.hW w.hB hPrev) defaultEps
  let resetGate := fun b i =>
    sigmoid (splitChunk (0 : Fin 3) i2h b i + splitChunk (0 : Fin 3) h2h b i)
  let updateGate := fun b i =>
    sigmoid (splitChunk (1 : Fin 3) i2h b i + splitChunk (1 : Fin 3) h2h b i)
  let candidate := fun b i =>
    tanhFn (splitChunk (2 : Fin 3) i2h b i + resetGate b i * splitChunk (2 : Fin 3) h2h b i)
  let h := fun b i =>
    (1 - updateGate b i) * candidate b i + updateGate b i * hPrev b i
  (h, h)

/-! ### Position-wise feed-forward (layers.py, class FFNRelu) -/

/-- mx.sym.Activation with act_type relu. -/
def relu (q : ℚ) : ℚ := max q 0

/-- mx.sym.Dropout on a rank-2 tensor, modelled with an explicit Boolean
keep-mask and inverted-dropout rescaling. -/
def mxDropoutM {B n : ℕ} (p : ℚ) (mask : Fin B → Fin n → Bool)
    (x : Fin B → Fin n → ℚ) : Fin B → Fin n → ℚ :=
  fun b i => if mask b i then x b i * (1 - p)⁻¹ else 0

/-- FFNRelu.apply (layers.py lines 244-261) on the flattened
(batch*length, num_model) input: first linear layer, ReLU, dropout only
when the configured rate is positive, second linear layer. -/
def ffnApply {B nm nh : ℕ} (p : ℚ) (mask : Fin B → Fin nh → Bool)
    (w1 : Fin nh → Fin nm → ℚ) (b1 : Fin nh → ℚ)
    (w2 : Fin nm → Fin nh → ℚ) (b2 : Fin nm → ℚ)
    (x : Fin B → Fin nm → ℚ) : Fin B → Fin nm → ℚ :=
  let h := mapAct relu (fullyConnectedB w1 b1 x)
  let h := if 0 < p then mxDropoutM p mask h else h
  fullyConnectedB w2 b2 h

/-! ### Construction-time checks and the stack builder (layers.py
constructors, rnn.py get_stacked_rnn) -/

/-- The two error kinds raised at construction time by the sources: the
configuration-error kind raised by utils.check_condition, and the distinct
built-in NotImplementedError raised literally in rnn.py line 79. -/
inductive SockeyeErr where
  | config : String → SockeyeErr
  | notImplemented : SockeyeErr
deriving DecidableEq

/-- Modelled from the spec: utils.check_condition (utils.py is not among
the sources under study; spec section 7 describes a single
configuration-error kind covering all static misconfiguration) fails with
the configuration-error kind carrying the message when the condition is
false, and succeeds otherwise. -/
def check_condition (cond : Prop) [Decidable cond] (msg : String) :
    Except SockeyeErr Unit :=
  if cond then .ok () else .error (.config msg)

/-- The data a constructed LayerNormalization owns when scale and shift are
created from constant initializers. -/
structure LayerNormalizationCfg where
  num_hidden : ℕ
  scale_init : ℚ
  shift_init : ℚ
deriving DecidableEq

/-- LayerNormalization.__init__ (layers.py lines 34-47): checks
num_hidden > 1 before creating the constant-initialized scale and shift
variables. -/
def mkLayerNormalization (num_hidden : ℕ) (scale_init shift_init : ℚ) :
    Except SockeyeErr LayerNormalizationCfg := do
  check_condition (1 < num_hidden)
    "Layer normalization should only be applied to layers with more than 1 neuron."
  pure ⟨num_hidden, scale_init, shift_init⟩

/-- The message of layers.py line 140, the format string
percent-d-instantiated with the head count and attention depth. -/
def headsMsg (heads depth_att : ℕ) : String :=
  "Number of heads (" ++ toString heads ++ ") must divide attention depth ("
    ++ toString depth_att ++ ")"

/-- The data a constructed MultiHeadAttention owns. -/
structure MultiHeadAttentionCfg where
  depth_att : ℕ
  heads : ℕ
  depth_out : ℕ
  dropout : ℚ
  depth_per_head : ℕ
deriving DecidableEq

/-- MultiHeadAttention.__init__ (layers.py lines 132-151): checks that the
head count divides the attention depth, with both offending values in the
message, before any forward computation is available. -/
def mkMultiHeadAttention (depth_att heads depth_out : ℕ) (dropout : ℚ) :
    Except SockeyeErr MultiHeadAttentionCfg := do
  check_condition (depth_att % heads = 0) (headsMsg heads depth_att)
  pure ⟨depth_att, heads, depth_out, dropout, depth_att / heads⟩

/-- Modelled from the spec: the cell-kind identifier constants C.LSTM_TYPE
and friends (constants.py is not among the sources under study; spec
section 3 gives the cell-kind set {LSTM, GRU} x {plain,
layer-norm-across-gates, layer-norm-per-gate}, six distinct identifiers). -/
def LSTM_TYPE : String := "lstm"

/-- Modelled from the spec: see LSTM_TYPE. -/
def LNLSTM_TYPE : String := "lnlstm"

/-- Modelled from the spec: see LSTM_TYPE. -/
def LNGLSTM_TYPE : String := "lnglstm"

/-- Modelled from the spec: see LSTM_TYPE. -/
def GRU_TYPE : String := "gru"

/-- Modelled from the spec: see LSTM_TYPE. -/
def LNGRU_TYPE : String := "lngru"

/-- Modelled from the spec: see LSTM_TYPE. -/
def LNGGRU_TYPE : String := "lnggru"

/-- RNNConfig (rnn.py lines 24-48). -/
structure RNNConfig where
  cell_type : String
  num_hidden : ℕ
  num_layers : ℕ
  dropout : ℚ
  residual : Bool
  forget_bias : ℚ
deriving DecidableEq

/-- One entry of the sequential stack built by get_stacked_rnn: a base cell
of one of the six kinds, optionally wrapped by mx.rnn.ResidualCell, or a
mx.rnn.DropoutCell. -/
inductive StackCell where
  | lstm : ℕ → ℚ → StackCell
  | lnlstm : ℕ → ℚ → StackCell
  | lnglstm : ℕ → ℚ → StackCell
  | gru : ℕ → StackCell
  | lngru : ℕ → StackCell
  | lnggru : ℕ → StackCell
  | residual : StackCell → StackCell
  | dropoutCell : ℚ → StackCell
deriving DecidableEq

/-- The cell-kind dispatch of rnn.py lines 65-79: the if/elif chain over
the configured cell type, ending in raise NotImplementedError(). -/
def buildBaseCell (config : RNNConfig) : Except SockeyeErr StackCell :=
  if config.cell_type = LSTM_TYPE then
    .ok (StackCell.lstm config.num_hidden config.forget_bias)
  else if config.cell_type = LNLSTM_TYPE then
    .ok (StackCell.lnlstm config.num_hidden config.forget_bias)
  else if config.cell_type = LNGLSTM_TYPE then
    .ok (StackCell.lnglstm config.num_hidden config.forget_bias)
  else if config.cell_type = GRU_TYPE then
    .ok (StackCell.gru config.num_hidden)
  else if config.cell_type = LNGRU_TYPE then
    .ok (StackCell.lngru config.num_hidden)
  else if config.cell_type = LNGGRU_TYPE then
    .ok (StackCell.lnggru config.num_hidden)
  else
    .error SockeyeErr.notImplemented

/-- One iteration of the layer loop of get_stacked_rnn (rnn.py lines
61-86): build the base cell, wrap it in a ResidualCell when residual is set
and the layer index is positive, and append a DropoutCell when the dropout
rate is positive. -/
def buildLayer (config : RNNConfig) (layer : ℕ) :
    Except SockeyeErr (List StackCell) := do
  let base ← buildBaseCell config
  let cell := if config.residual ∧ 0 < layer then StackCell.residual base else base
  pure (if 0 < config.dropout then [cell, StackCell.dropoutCell config.dropout] else [cell])

/-- The accumulator step used to thread the growing stack through the layer
loop. -/
def stackStep (config : RNNConfig) (acc : List StackCell) (layer : ℕ) :
    Except SockeyeErr (List StackCell) := do
  let cells ← buildLayer config layer
  pure (acc ++ cells)

/-- get_stacked_rnn (rnn.py lines 51-87): fold the layer loop over layer
indices 0 .. num_layers-1, starting from the empty sequential stack. -/
def get_stacked_rnn (config : RNNConfig) : Except SockeyeErr (List StackCell) :=
  (List.range config.num_layers).foldlM (stackStep config) []

/-- Whether a construction result failed with the configuration-error
kind. -/
def isConfigError {β : Type} : Except SockeyeErr β → Bool
  | .error (.config _) => true
  | _ => false

/-- Whether a stack entry is a DropoutCell wrapper. -/
def StackCell.isDropoutCell : StackCell → Bool
  | .dropoutCell _ => true
  | _ => false

/-- Whether a successfully built stack contains any DropoutCell. -/
def stackHasDropout : Except SockeyeErr (List StackCell) → Bool
  | .ok l => l.any StackCell.isDropoutCell
  | .error _ => false

/-! ### Per-gate LSTM normalization-unit initialization (rnn.py,
LayerNormPerGateLSTMCell.__init__) -/

/-- One Normalization unit of the per-gate LSTM cell as constructed: the
parameter-store name and constant initial value bound to the scale slot,
and the same for the shift slot. -/
structure NormUnitInit where
  scaleParamName : String
  scaleInit : ℚ
  shiftParamName : String
  shiftInit : ℚ
deriving DecidableEq

/-- LayerNormPerGateLSTMCell.__init__ (rnn.py lines 179-194), translated as
written: for each unit name in [i, f, c, o, s], the variable passed as the
scale argument of LayerNormalization is the parameter named name_shift
initialized to the constant norm_shift, and the variable passed as the
shift argument is the parameter named name_scale initialized to the
constant norm_scale, except that the f entry uses forget_bias instead of
norm_scale. -/
def perGateLstmNorms (forget_bias norm_scale norm_shift : ℚ) :
    List (String × NormUnitInit) :=
  ["i", "f", "c", "o", "s"].map (fun name =>
    (name,
      { scaleParamName := name ++ "_shift"
        scaleInit := norm_shift
        shiftParamName := name ++ "_scale"
        shiftInit := if name ≠ "f" then norm_scale else forget_bias }))

end Sockeye

namespace Sockeye

/-- Claim C7: for every input tensor of shape (batch, H) with H > 1,
LayerNormalization.normalize returns scale ⊙ (x − mean) / sqrt(var + eps) +
shift, where mean is the per-row mean over the H axis, var the per-row mean
of squared deviations from that mean, and the (H,)-shaped scale and shift
vectors are broadcast over the batch axis. -/
theorem normalize_eq_spec_formula (sqrtFn : ℚ → ℚ) {B H : ℕ} (_hH : 1 < H)
    (scale shift : Fin H → ℚ) (x : Fin B → Fin H → ℚ) (eps : ℚ) :
    normalize sqrtFn scale shift x eps = normalizeSpecFormula sqrtFn scale shift x eps := by
  funext b i
  simp only [normalize, normalizeSpecFormula, broadcastAddRow, broadcastMulRow,
    broadcastMulCol, broadcastMinus, mxMeanAxis1, mxVarAxis1, rsqrt]
  rw [div_eq_mul_inv]
  ring

/-- Witness for the claim C7 theorem at H = 2, B = 1, concrete parameters. -/
theorem normalize_eq_spec_formula_witness :
    (1 : ℕ) < 2 ∧
      normalize id (fun _ => 2) (fun _ => 3)
          (fun (_ : Fin 1) (j : Fin 2) => ((j : ℕ) : ℚ)) 1 =
        normalizeSpecFormula id (fun _ => 2) (fun _ => 3)
          (fun (_ : Fin 1) (j : Fin 2) => ((j : ℕ) : ℚ)) 1 :=
  ⟨by decide, normalize_eq_spec_formula id (by decide) _ _ _ _⟩

/-- Claim C2: for every tensor of shape (batch, length, depth) with depth =
heads * depth_per_head (depth divisible by heads), combine_heads after
split_heads with the same arguments restores the original tensor at every
valid index. -/
theorem combine_split_heads_id {α : Type} (heads dph : ℕ) (x : ℕ → ℕ → ℕ → α)
    (b l dp : ℕ) (hdp : dp < heads * dph) :
    combine_heads heads dph (split_heads heads dph x) b l dp = x b l dp := by
  have hdph : 0 < dph := by
    rcases Nat.eq_zero_or_pos dph with h0 | hpos
    · rw [h0, Nat.mul_zero] at hdp; omega
    · exact hpos
  have hheads : 0 < heads := by
    rcases Nat.eq_zero_or_pos heads with h0 | hpos
    · rw [h0, Nat.zero_mul] at hdp; omega
    · exact hpos
  have h1 : dp / dph < heads := (Nat.div_lt_iff_lt_mul hdph).mpr hdp
  simp only [combine_heads, split_heads, reshapeMerge23, reshapeSplit01,
    transpose0213, reshapeMerge01, reshapeSplitLast]
  rw [mul_comm b heads, Nat.mul_add_div hheads, Nat.div_eq_of_lt h1, Nat.add_zero,
    Nat.mul_add_mod, Nat.mod_eq_of_lt h1, mul_comm (dp / dph) dph, Nat.div_add_mod]

/-- Witness for the claim C2 theorem: heads = 2, depth_per_head = 3, a
concrete tensor of index triples, checked at index (1, 0, 5). -/
theorem combine_split_heads_id_witness :
    5 < 2 * 3 ∧
      combine_heads 2 3 (split_heads 2 3 (fun b l d => (b, l, d))) 1 0 5 =
        (fun (b l d : ℕ) => (b, l, d)) 1 0 5 :=
  ⟨by decide, combine_split_heads_id 2 3 _ 1 0 5 (by decide)⟩

/-- Claim C1: in MultiHeadAttention.on, for every batch row b, head h <
heads, and query position q, the probability row equals the softmax of the
logits in which exactly the key positions at or beyond the valid length of
sequence b are replaced by the finite negative sentinel maskValue =
-99999999: the valid length is replicated identically across all heads of
sequence b, masking selects on the key index only, the replacement happens
before the softmax, and rows for query positions beyond the valid length
are computed normally (q is unconstrained), not separately zeroed. -/
theorem attend_mask_before_softmax (expFn : ℚ → ℚ) (heads length : ℕ)
    (inputsLength : ℕ → ℕ) (logits : ℕ → ℕ → ℕ → ℚ) (b h q : ℕ)
    (hh : h < heads) :
    attendProbs expFn heads length inputsLength logits (b * heads + h) q
        = softmaxRow expFn length
            (fun k => if k < inputsLength b then logits (b * heads + h) q k else maskValue)
      ∧ maskValue = -99999999 ∧ maskValue < 0 := by
  have hlen : broadcast_lengths heads inputsLength (b * heads + h) = inputsLength b := by
    simp only [broadcast_lengths, mergeBatchHeads, broadcastToHeads, expandDims1]
    rw [mul_comm b heads, Nat.mul_add_div (by omega), Nat.div_eq_of_lt hh, Nat.add_zero]
  refine ⟨?_, rfl, by norm_num [maskValue]⟩
  simp only [attendProbs, maskedLogits, transpose120, sequenceMask, transpose201, hlen]

/-- Witness for the claim C1 theorem: two heads, length 4, valid length 2,
checked for head 1 of batch row 1 at query position 3 (beyond the valid
length). -/
theorem attend_mask_before_softmax_witness :
    1 < 2 ∧
      (attendProbs id 2 4 (fun _ => 2) (fun _ _ _ => 0) (1 * 2 + 1) 3
          = softmaxRow id 4
              (fun k => if k < (fun _ : ℕ => 2) 1 then (fun _ _ _ => (0 : ℚ)) (1 * 2 + 1) 3 k else maskValue)
        ∧ maskValue = -99999999 ∧ maskValue < 0) :=
  ⟨by decide, attend_mask_before_softmax id 2 4 (fun _ => 2) (fun _ _ _ => 0) 1 1 3 (by decide)⟩

/-- Adding the all-zeros placeholder to a tensor leaves it unchanged, as a
function-level identity. -/
theorem eltAdd_zerosLike {B n : ℕ} (z t : Fin B → Fin n → ℚ) :
    eltAdd (zerosLike z) t = t := by
  funext b i
  simp [eltAdd, zerosLike]

/-- Claim C5: for every input and previous state, the across-gates
layer-normalized LSTM step computes gatesRaw as
normInput(Linear_i(x)) + normHidden(Linear_h(h_prev)) with two independent
Normalization units over 4H, splits it into the four H-sized chunks inGate,
forgetGate, candidate, outGate in that fixed order, applies
sigmoid/sigmoid/tanh/sigmoid, sets c = forgetGate ⊙ c_prev + inGate ⊙
candidate and h = outGate ⊙ tanh(normCell(c)) with a third Normalization
unit over H on the cell memory, and returns output h with new state
(h, c). -/
theorem lnLstm_call_eq_spec (sqrtFn sigmoid tanhFn : ℚ → ℚ) {B nin H : ℕ}
    (w : LstmWeights nin H) (x : Fin B → Fin nin → ℚ)
    (hPrev cPrev : Fin B → Fin H → ℚ) :
    LayerNormLSTMCell_call sqrtFn sigmoid tanhFn w x hPrev cPrev =
      lstmStepSpecFormula sqrtFn sigmoid tanhFn w x hPrev cPrev := by
  simp only [LayerNormLSTMCell_call, eltAdd_zerosLike]
  rfl

/-- Claim C6: for every input and previous hidden state, the across-gates
layer-normalized GRU step normalizes each full projection over 3H with its
own Normalization unit, splits each into reset/update/candidate chunks, and
computes resetGate = sigmoid(i2h_r + h2h_r), updateGate = sigmoid(i2h_z +
h2h_z), candidate = tanh(i2h_c + resetGate ⊙ h2h_c), and new hidden h =
(1 − updateGate) ⊙ candidate + updateGate ⊙ h_prev, which is also the
output. -/
theorem lnGru_call_eq_spec (sqrtFn sigmoid tanhFn : ℚ → ℚ) {B nin H : ℕ}
    (w : GruWeights nin H) (x : Fin B → Fin nin → ℚ)
    (hPrev : Fin B → Fin H → ℚ) :
    LayerNormGRUCell_call sqrtFn sigmoid tanhFn w x hPrev =
      gruStepSpecFormula sqrtFn sigmoid tanhFn w x hPrev := by
  simp only [LayerNormGRUCell_call, eltAdd_zerosLike]
  rfl

/-- Claim C9: in the across-gates LSTM and GRU cells, the first
step of the first invocation, which adds an all-zeros placeholder shaped like the
input projection to the hidden-side projection before normalization,
computes the same output and new state as the recurrence without the
placeholder; at the core, normHidden(0 + h2h) = normHidden(h2h), so the
first step and all later steps implement one and the same step function. -/
theorem shape_fix_placeholder_noop :
    (∀ (sqrtFn sigmoid tanhFn : ℚ → ℚ) (B nin H : ℕ) (w : LstmWeights nin H)
        (x : Fin B → Fin nin → ℚ) (hPrev cPrev : Fin B → Fin H → ℚ),
      LayerNormLSTMCell_call sqrtFn sigmoid tanhFn w x hPrev cPrev =
        LayerNormLSTMCell_call_noFix sqrtFn sigmoid tanhFn w x hPrev cPrev)
  ∧ (∀ (sqrtFn sigmoid tanhFn : ℚ → ℚ) (B nin H : ℕ) (w : GruWeights nin H)
        (x : Fin B → Fin nin → ℚ) (hPrev : Fin B → Fin H → ℚ),
      LayerNormGRUCell_call sqrtFn sigmoid tanhFn w x hPrev =
        LayerNormGRUCell_call_noFix sqrtFn sigmoid tanhFn w x hPrev)
  ∧ (∀ (sqrtFn : ℚ → ℚ) (B n : ℕ) (p : LNParams n)
        (t z : Fin B → Fin n → ℚ) (eps : ℚ),
      normalize sqrtFn p.scale p.shift (eltAdd (zerosLike z) t) eps =
        normalize sqrtFn p.scale p.shift t eps) := by
  refine ⟨?_, ?_, ?_⟩
  · intro sqrtFn sigmoid tanhFn B nin H w x hPrev cPrev
    simp only [LayerNormLSTMCell_call, eltAdd_zerosLike]
    rfl
  · intro sqrtFn sigmoid tanhFn B nin H w x hPrev
    simp only [LayerNormGRUCell_call, eltAdd_zerosLike]
    rfl
  · intro sqrtFn B n p t z eps
    rw [eltAdd_zerosLike]

/-- Claim C3 is refuted by the code: evaluating
LayerNormPerGateLSTMCell.__init__ with forget_bias = 1, the generic scale
initializer 1 and the default shift initializer 0 shows that the shift slot of
every unit is initialized to 1 (norm_scale for i, c, o, s; forget_bias for
f) and the scale slot of every unit to 0 (norm_shift), and that the underlying
parameter names are crossed (the scale slot holds the parameter named
name_shift and vice versa): the claim expects shift 0 for the non-forget
gates and scale 1 everywhere. The first list below records (unit name,
shift init, scale init); the second records (unit name, scale-slot
parameter name, shift-slot parameter name). -/
theorem perGateLstm_init_swapped :
    (perGateLstmNorms 1 1 0).map (fun u => (u.1, u.2.shiftInit, u.2.scaleInit)) =
        [("i", (1 : ℚ), (0 : ℚ)), ("f", 1, 0), ("c", 1, 0), ("o", 1, 0), ("s", 1, 0)]
      ∧ (perGateLstmNorms 1 1 0).map
          (fun u => (u.1, u.2.scaleParamName, u.2.shiftParamName)) =
        [("i", "i_shift", "i_scale"), ("f", "f_shift", "f_scale"),
         ("c", "c_shift", "c_scale"), ("o", "o_shift", "o_scale"),
         ("s", "s_shift", "s_scale")] := by
  exact ⟨by decide, by decide⟩

/-- A cell type outside the six recognized identifiers makes the dispatch
fall through to the NotImplementedError branch. -/
theorem buildBaseCell_unknown (cfg : RNNConfig)
    (hmem : cfg.cell_type ∉
      [LSTM_TYPE, LNLSTM_TYPE, LNGLSTM_TYPE, GRU_TYPE, LNGRU_TYPE, LNGGRU_TYPE]) :
    buildBaseCell cfg = .error SockeyeErr.notImplemented := by
  simp only [List.mem_cons, List.not_mem_nil, or_false, not_or] at hmem
  obtain ⟨h1, h2, h3, h4, h5, h6⟩ := hmem
  simp only [buildBaseCell, if_neg h1, if_neg h2, if_neg h3, if_neg h4, if_neg h5,
    if_neg h6]

/-- When the base-cell dispatch fails, one whole layer-loop iteration fails
with the same error. -/
theorem stackStep_of_base_error (cfg : RNNConfig) (acc : List StackCell)
    (layer : ℕ) (e : SockeyeErr) (h : buildBaseCell cfg = .error e) :
    stackStep cfg acc layer = .error e := by
  unfold stackStep buildLayer
  rw [h]
  rfl

/-- Claim C4 counterexample: with one layer and the unrecognized cell-kind
identifier foo, get_stacked_rnn fails with the built-in
NotImplementedError, which is not the single configuration-error kind, so
not every static misconfiguration raises a configuration error of that
kind. -/
theorem unknown_cell_kind_not_config_error :
    get_stacked_rnn
        { cell_type := "foo", num_hidden := 1, num_layers := 1, dropout := 0,
          residual := false, forget_bias := 0 } =
      .error SockeyeErr.notImplemented
    ∧ isConfigError (get_stacked_rnn
        { cell_type := "foo", num_hidden := 1, num_layers := 1, dropout := 0,
          residual := false, forget_bias := 0 }) = false := by
  exact ⟨rfl, rfl⟩

/-- Claim C4 as amended: the normalized-dimension check and the attention
divisibility check fail at construction time with the single
configuration-error kind, with the divisibility message containing the
offending head and depth values; normalized dimension 2 and the pair
attnDepth = 512, heads = 8 construct successfully; an unrecognized
cell-kind identifier also fails at build time before any forward
computation, but with the distinct built-in NotImplementedError rather
than the configuration-error kind. -/
theorem construction_error_behavior :
    (∀ (n : ℕ) (sc sh : ℚ), n ≤ 1 →
      mkLayerNormalization n sc sh =
        .error (.config
          "Layer normalization should only be applied to layers with more than 1 neuron."))
  ∧ (∀ sc sh : ℚ, (mkLayerNormalization 2 sc sh).isOk = true)
  ∧ (∀ (d h dout : ℕ) (drop : ℚ), d % h ≠ 0 →
      mkMultiHeadAttention d h dout drop = .error (.config (headsMsg h d)))
  ∧ (∀ h d : ℕ, ∃ u v w : String,
      headsMsg h d = u ++ toString h ++ v ++ toString d ++ w)
  ∧ (∀ (dout : ℕ) (drop : ℚ), (mkMultiHeadAttention 512 8 dout drop).isOk = true)
  ∧ (∀ cfg : RNNConfig, cfg.cell_type ∉
        [LSTM_TYPE, LNLSTM_TYPE, LNGLSTM_TYPE, GRU_TYPE, LNGRU_TYPE, LNGGRU_TYPE] →
      0 < cfg.num_layers →
      get_stacked_rnn cfg = .error SockeyeErr.notImplemented) := by
  refine ⟨?_, ?_, ?_, ?_, ?_, ?_⟩
  · intro n sc sh hn
    simp only [mkLayerNormalization, check_condition, if_neg (by omega : ¬ 1 < n)]
    rfl
  · intro sc sh
    rfl
  · intro d h dout drop hmod
    simp only [mkMultiHeadAttention, check_condition, if_neg hmod]
    rfl
  · intro h d
    exact ⟨"Number of heads (", ") must divide attention depth (", ")", rfl⟩
  · intro dout drop
    rfl
  · intro cfg hmem hpos
    obtain ⟨m, hm⟩ := Nat.exists_eq_succ_of_ne_zero (Nat.pos_iff_ne_zero.mp hpos)
    have hbase := buildBaseCell_unknown cfg hmem
    simp only [get_stacked_rnn, hm, List.range_succ_eq_map, List.foldlM_cons,
      stackStep_of_base_error cfg [] 0 SockeyeErr.notImplemented hbase]
    rfl

/-- Witness for the claim C4 theorem: the failing constructions at
num_hidden = 1, at depth 512 with 7 heads, and at the unrecognized cell
kind foo with one layer. -/
theorem construction_error_behavior_witness :
    mkLayerNormalization 1 1 0 =
        .error (.config
          "Layer normalization should only be applied to layers with more than 1 neuron.")
      ∧ mkMultiHeadAttention 512 7 512 0 = .error (.config (headsMsg 7 512))
      ∧ get_stacked_rnn
          { cell_type := "foo", num_hidden := 4, num_layers := 2, dropout := 0,
            residual := false, forget_bias := 0 } =
        .error SockeyeErr.notImplemented :=
  ⟨construction_error_behavior.1 1 1 0 (by decide),
   construction_error_behavior.2.2.1 512 7 512 0 (by decide),
   construction_error_behavior.2.2.2.2.2
     { cell_type := "foo", num_hidden := 4, num_layers := 2, dropout := 0,
       residual := false, forget_bias := 0 } (by decide) (by decide)⟩

/-- Claim C10: for every configuration with layer count 0, whatever the
cell-kind identifier, the stack builder returns the empty stack and raises
no error: the unknown-cell-kind failure can only arise once at least one
layer is instantiated. -/
theorem get_stacked_rnn_zero_layers (ct : String) (nh : ℕ) (drop : ℚ)
    (res : Bool) (fb : ℚ) :
    get_stacked_rnn
        { cell_type := ct, num_hidden := nh, num_layers := 0, dropout := drop,
          residual := res, forget_bias := fb } = .ok [] := by
  simp only [get_stacked_rnn, List.range_zero, List.foldlM_nil]
  rfl

/-- The base-cell dispatch never produces a DropoutCell. -/
theorem buildBaseCell_not_dropout (cfg : RNNConfig) (base : StackCell)
    (h : buildBaseCell cfg = .ok base) : base.isDropoutCell = false := by
  unfold buildBaseCell at h
  repeat' split at h
  all_goals first
    | (cases h; rfl)
    | exact Except.noConfusion h

/-- With a nonpositive dropout rate, folding the layer loop over any list
of layer indices never adds a DropoutCell to a dropout-free accumulator. -/
theorem foldl_stack_no_dropout (cfg : RNNConfig) (hd : ¬ 0 < cfg.dropout) :
    ∀ (l : List ℕ) (acc : List StackCell),
      acc.any StackCell.isDropoutCell = false →
      stackHasDropout (l.foldlM (stackStep cfg) acc) = false := by
  intro l
  induction l with
  | nil =>
      intro acc hacc
      rw [List.foldlM_nil]
      exact hacc
  | cons a t ih =>
      intro acc hacc
      rw [List.foldlM_cons]
      cases hbase : buildBaseCell cfg with
      | error e =>
          rw [stackStep_of_base_error cfg acc a e hbase]
          rfl
      | ok base =>
          have hstep : stackStep cfg acc a =
              .ok (acc ++ [if cfg.residual ∧ 0 < a then StackCell.residual base else base]) := by
            unfold stackStep buildLayer
            rw [hbase]
            simp [if_neg hd]
          rw [hstep]
          have hc : (if cfg.residual ∧ 0 < a then StackCell.residual base
              else base).isDropoutCell = false := by
            split
            · rfl
            · exact buildBaseCell_not_dropout cfg base hbase
          refine ih _ ?_
          rw [List.any_append, hacc, List.any_cons, List.any_nil, hc]
          rfl

/-- Claim C8: with a configured dropout rate of 0, the exposed operations
are deterministic: the attention probabilities of MultiHeadAttention.on and
the feed-forward FFNRelu.apply do not depend on the dropout mask at all
(two runs with different masks but identical weights and inputs agree
exactly), and a stack built by get_stacked_rnn with dropout 0 contains no
DropoutCell, so every recurrent cell step in it is a pure function of
weights, input, and state. -/
theorem dropout_zero_deterministic :
    (∀ (expFn : ℚ → ℚ) (heads length : ℕ) (inputsLength : ℕ → ℕ)
        (logits : ℕ → ℕ → ℕ → ℚ) (mask1 mask2 : ℕ → ℕ → ℕ → Bool),
      attendProbsDropout expFn 0 mask1 heads length inputsLength logits =
        attendProbsDropout expFn 0 mask2 heads length inputsLength logits)
  ∧ (∀ (B nm nh : ℕ) (mask1 mask2 : Fin B → Fin nh → Bool)
        (w1 : Fin nh → Fin nm → ℚ) (b1 : Fin nh → ℚ)
        (w2 : Fin nm → Fin nh → ℚ) (b2 : Fin nm → ℚ) (x : Fin B → Fin nm → ℚ),
      ffnApply 0 mask1 w1 b1 w2 b2 x = ffnApply 0 mask2 w1 b1 w2 b2 x)
  ∧ (∀ (ct : String) (nh nl : ℕ) (res : Bool) (fb : ℚ),
      stackHasDropout (get_stacked_rnn
        { cell_type := ct, num_hidden := nh, num_layers := nl, dropout := 0,
          residual := res, forget_bias := fb }) = false) := by
  refine ⟨?_, ?_, ?_⟩
  · intro expFn heads length inputsLength logits mask1 mask2
    simp [attendProbsDropout, lt_self_iff_false]
  · intro B nm nh mask1 mask2 w1 b1 w2 b2 x
    simp [ffnApply, lt_self_iff_false]
  · intro ct nh nl res fb
    exact foldl_stack_no_dropout
      { cell_type := ct, num_hidden := nh, num_layers := nl, dropout := 0,
        residual := res, forget_bias := fb }
      (lt_irrefl 0) (List.range nl) [] rfl

end Sockeye
